import Mathlib

/-!
Shallow embedding of the library-borrowing backend (Django/DRF service:
books, borrowings, payments with a Stripe checkout gateway).

Conventions of the embedding:
* Dates are integers counting days (`Int`); the source works with
  `datetime.date` and only ever uses differences in days and `<`/`>`
  comparisons, which this preserves.
* Money is kept in integer cents (`Int`).  The source stores
  `daily_fee`/`money_to_pay` as `Decimal` with two decimal places and
  converts to cents with `int(... * 100)`; since every product of a
  two-decimal-place `Decimal` with integers times 100 is an exact
  integer, the `int(...)` truncation is the identity there and the cents
  arithmetic below is exact.
* External gateway calls are modelled by oracle arguments: session
  creation takes the fresh `session_id`/`session_url` the provider would
  mint, and session retrieval is a function `String → Except String
  SessionLookup` (`.error` models a raised Stripe/network exception).
* Database rows live in lists; row updates are keyed by primary key
  (`id`), matching the ORM's `save()`-by-pk semantics.
-/

namespace LibraryDRF

/-- `books.models.Payment.Status`. -/
inductive PaymentStatus where
  | PENDING
  | PAID
  | EXPIRED
deriving DecidableEq, Repr

/-- `books.models.Payment.Type`. -/
inductive PaymentType where
  | PAYMENT
  | FINE
deriving DecidableEq, Repr

/-- `books.models.Book`.  `inventory` is a `PositiveIntegerField`
(non-negative), modelled as `Int` so that the non-negativity invariant
is a statement about the code rather than about the type.
`daily_fee` (a two-decimal-place `Decimal`) is held in cents. -/
structure Book where
  id : Nat
  title : String
  inventory : Int
  daily_fee_cents : Int
deriving DecidableEq, Repr

/-- `borrowing.models.Borrowing`.  Dates are day numbers. -/
structure Borrowing where
  id : Nat
  borrow_date : Int
  expected_return_date : Int
  actual_return_date : Option Int
  book_id : Nat
  user_id : Nat
deriving DecidableEq, Repr

/-- `books.models.Payment`.  `money_to_pay` is held in cents. -/
structure Payment where
  id : Nat
  status : PaymentStatus
  type : PaymentType
  borrowing_id : Nat
  session_id : String
  session_url : String
  money_to_pay_cents : Int
deriving DecidableEq, Repr

/-- The relational state the endpoints read and write. -/
structure LibraryState where
  books : List Book
  borrowings : List Borrowing
  payments : List Payment
  next_borrowing_id : Nat
  next_payment_id : Nat
deriving DecidableEq, Repr

/-- A Stripe checkout session as returned by
`stripe.checkout.Session.create` (the fields the code reads back:
`id`, `url`, `amount_total`). -/
structure StripeSession where
  id : String
  url : String
  amount_total : Int
deriving DecidableEq, Repr

/-- A Stripe checkout session as returned by
`stripe.checkout.Session.retrieve` (the fields the code reads:
`id`, `status`, `payment_status`). -/
structure SessionLookup where
  id : String
  status : String
  payment_status : String
deriving DecidableEq, Repr

/-- `books.stripe.FINE_MULTIPLIER`. -/
def FINE_MULTIPLIER : Int := 2

/-- `books.stripe.calculate_amount`, in cents.  The fine branch reads
`borrowing.actual_return_date`, which the caller has always set
(`getD 0` is never reached with `none` on the paths modelled here). -/
def calculate_amount (book : Book) (borrowing : Borrowing) (today : Int)
    (fine : Bool) : Int :=
  if fine then
    (borrowing.actual_return_date.getD 0 - borrowing.expected_return_date)
      * book.daily_fee_cents * FINE_MULTIPLIER
  else
    book.daily_fee_cents * (borrowing.expected_return_date - today)

/-- `books.stripe.create_stripe_session_for_borrowing`.  The provider
mints `fresh_id`/`fresh_url`; `amount_total` echoes the `unit_amount`
the code passes in.  Note the code multiplies by `FINE_MULTIPLIER`
again on top of `calculate_amount`'s own fine branch. -/
def create_stripe_session_for_borrowing (book : Book) (borrowing : Borrowing)
    (today : Int) (fresh_id fresh_url : String) (fine : Bool) : StripeSession :=
  let amount := calculate_amount book borrowing today fine
  let amount := if fine then amount * FINE_MULTIPLIER else amount
  { id := fresh_id, url := fresh_url, amount_total := amount }

/-- `books.stripe.renew_stripe_session`: the new session's amount is
`int(Decimal(payment.money_to_pay) * 100)`, i.e. the stored cents. -/
def renew_stripe_session (payment : Payment) (fresh_id fresh_url : String) :
    StripeSession :=
  { id := fresh_id, url := fresh_url, amount_total := payment.money_to_pay_cents }

/-- `Payment.objects.filter(borrowing__user=user, ...)` join: does this
payment's borrowing belong to `user_id`? -/
def payment_belongs_to_user (s : LibraryState) (p : Payment) (user_id : Nat) :
    Bool :=
  match s.borrowings.find? (fun b => b.id == p.borrowing_id) with
  | some b => b.user_id == user_id
  | none => false

/-- `Payment.objects.filter(borrowing__user=user,
status=Payment.Status.PENDING).exists()`. -/
def user_has_pending_payment (s : LibraryState) (user_id : Nat) : Bool :=
  s.payments.any (fun p =>
    p.status == PaymentStatus.PENDING && payment_belongs_to_user s p user_id)

/-- Outcome of `POST /borrowings`. -/
inductive BorrowCreateResult where
  | conflict_pending_payments
  | out_of_stock
  | book_not_found
  | created (borrowing_id : Nat)
deriving DecidableEq, Repr

/-- `BorrowingViewSet.perform_create` together with
`BorrowingCreateSerializer.create`:
pending-payment conflict check first; then the serializer's
out-of-stock check and inventory decrement; then the Stripe session and
the `Payment` row (no explicit `status`, so the model default `PENDING`
applies). -/
def perform_create (s : LibraryState) (user_id book_id : Nat)
    (expected_return_date today : Int) (fresh_id fresh_url : String) :
    BorrowCreateResult × LibraryState :=
  if user_has_pending_payment s user_id then
    (BorrowCreateResult.conflict_pending_payments, s)
  else
    match s.books.find? (fun b => b.id == book_id) with
    | none => (BorrowCreateResult.book_not_found, s)
    | some book =>
      if book.inventory ≤ 0 then
        (BorrowCreateResult.out_of_stock, s)
      else
        let borrowing : Borrowing :=
          { id := s.next_borrowing_id, borrow_date := today,
            expected_return_date := expected_return_date,
            actual_return_date := none, book_id := book_id,
            user_id := user_id }
        let session :=
          create_stripe_session_for_borrowing book borrowing today
            fresh_id fresh_url false
        let payment : Payment :=
          { id := s.next_payment_id, status := PaymentStatus.PENDING,
            type := PaymentType.PAYMENT, borrowing_id := borrowing.id,
            session_id := session.id, session_url := session.url,
            money_to_pay_cents := session.amount_total }
        (BorrowCreateResult.created borrowing.id,
         { s with
             books := s.books.map (fun b =>
               if b.id == book_id then { b with inventory := b.inventory - 1 }
               else b),
             borrowings := s.borrowings ++ [borrowing],
             payments := s.payments ++ [payment],
             next_borrowing_id := s.next_borrowing_id + 1,
             next_payment_id := s.next_payment_id + 1 })

/-- Outcome of `POST /borrowings/{id}/return`. -/
inductive ReturnResult where
  | not_found
  | forbidden
  | already_returned
  | returned_ok
  | returned_with_fine (payment_id : Nat)
deriving DecidableEq, Repr

/-- `BorrowingViewSet.return_borrowing`: ownership check, then the
already-returned check, then `actual_return_date = today`; if overdue,
a fine session and a FINE `Payment` (default status `PENDING`); the
book's inventory is incremented in every successful branch. -/
def return_borrowing (s : LibraryState) (borrowing_id actor_id : Nat)
    (actor_is_staff : Bool) (today : Int) (fresh_id fresh_url : String) :
    ReturnResult × LibraryState :=
  match s.borrowings.find? (fun b => b.id == borrowing_id) with
  | none => (ReturnResult.not_found, s)
  | some borrowing =>
    if !actor_is_staff && borrowing.user_id != actor_id then
      (ReturnResult.forbidden, s)
    else if borrowing.actual_return_date.isSome then
      (ReturnResult.already_returned, s)
    else
      match s.books.find? (fun b => b.id == borrowing.book_id) with
      | none => (ReturnResult.not_found, s)
      | some book =>
        let borrowing' := { borrowing with actual_return_date := some today }
        let books' := s.books.map (fun b =>
          if b.id == borrowing.book_id then
            { b with inventory := b.inventory + 1 }
          else b)
        let borrowings' := s.borrowings.map (fun b =>
          if b.id == borrowing_id then borrowing' else b)
        if borrowing.expected_return_date < today then
          let session :=
            create_stripe_session_for_borrowing book borrowing' today
              fresh_id fresh_url true
          let payment : Payment :=
            { id := s.next_payment_id, status := PaymentStatus.PENDING,
              type := PaymentType.FINE, borrowing_id := borrowing_id,
              session_id := session.id, session_url := session.url,
              money_to_pay_cents := session.amount_total }
          (ReturnResult.returned_with_fine payment.id,
           { s with
               books := books',
               borrowings := borrowings',
               payments := s.payments ++ [payment],
               next_payment_id := s.next_payment_id + 1 })
        else
          (ReturnResult.returned_ok,
           { s with books := books', borrowings := borrowings' })

/-- Outcome of `POST /payments/{id}/renew`. -/
inductive RenewResult where
  | not_found
  | not_expired
  | renewed (session_id session_url : String)
deriving DecidableEq, Repr

/-- `PaymentViewSet.renew`: 400 unless the payment is `EXPIRED`;
otherwise a fresh session is created for the stored `money_to_pay`,
and `status`/`session_id`/`session_url` are saved (only those fields:
`save(update_fields=[...])`). -/
def renew (s : LibraryState) (payment_id : Nat) (fresh_id fresh_url : String) :
    RenewResult × LibraryState :=
  match s.payments.find? (fun p => p.id == payment_id) with
  | none => (RenewResult.not_found, s)
  | some payment =>
    if payment.status ≠ PaymentStatus.EXPIRED then
      (RenewResult.not_expired, s)
    else
      let session := renew_stripe_session payment fresh_id fresh_url
      (RenewResult.renewed session.id session.url,
       { s with
           payments := s.payments.map (fun p =>
             if p.id == payment_id then
               { p with
                   status := PaymentStatus.PENDING,
                   session_id := session.id,
                   session_url := session.url }
             else p) })

/-- Outcome of `GET /payments/{id}/success`. -/
inductive SuccessResult where
  | not_found
  | gateway_error (msg : String)
  | paid_confirmation (msg : String)
  | not_completed
deriving DecidableEq, Repr

/-- `PaymentViewSet.success`: retrieve the session (an exception is the
`.error` case, answered 400 with no mutation); on `payment_status ==
"paid"` flip to `PAID` only when not already `PAID`, and answer the
same confirmation either way; otherwise a no-op "not completed". -/
def payment_success_check (s : LibraryState) (payment_id : Nat)
    (retrieve : String → Except String SessionLookup) :
    SuccessResult × LibraryState :=
  match s.payments.find? (fun p => p.id == payment_id) with
  | none => (SuccessResult.not_found, s)
  | some payment =>
    match retrieve payment.session_id with
    | Except.error e => (SuccessResult.gateway_error e, s)
    | Except.ok session =>
      if session.payment_status == "paid" then
        let s' :=
          if payment.status ≠ PaymentStatus.PAID then
            { s with
                payments := s.payments.map (fun p =>
                  if p.id == payment_id then
                    { p with status := PaymentStatus.PAID }
                  else p) }
          else s
        (SuccessResult.paid_confirmation
          ("Session " ++ session.id ++ " was successfully paid. Thank you!"),
         s')
      else
        (SuccessResult.not_completed, s)

/-- Loop body of `borrowing.tasks.track_expired_sessions` over the
payment rows in iteration order.  Non-`PENDING` rows are not in the
filtered queryset and are skipped.  A `retrieve` exception propagates
out of the task, so the failing payment and everything after it are
left untouched, while earlier `save()`s remain committed. -/
def track_expired_go (retrieve : String → Except String SessionLookup) :
    List Payment → List Payment
  | [] => []
  | p :: rest =>
    if p.status = PaymentStatus.PENDING then
      match retrieve p.session_id with
      | Except.error _ => p :: rest
      | Except.ok session =>
        (if session.status == "expired" then
           { p with status := PaymentStatus.EXPIRED }
         else p) :: track_expired_go retrieve rest
    else
      p :: track_expired_go retrieve rest

/-- `borrowing.tasks.track_expired_sessions` as a state transformer. -/
def track_expired_sessions (s : LibraryState)
    (retrieve : String → Except String SessionLookup) : LibraryState :=
  { s with payments := track_expired_go retrieve s.payments }

/-- Python's `str.lower()` for the ASCII values compared here, written
over the character list so proofs can evaluate it. -/
def lower (s : String) : String := String.mk (s.data.map Char.toLower)

/-- The `is_active` part of `BorrowingViewSet.get_queryset`: on the
caller's visible queryset, `is_active.lower() == "true"` keeps open
borrowings, `"false"` keeps returned ones, any other value applies no
filter; an absent parameter applies no filter. -/
def apply_is_active_filter (is_active : Option String)
    (qs : List Borrowing) : List Borrowing :=
  match is_active with
  | none => qs
  | some v =>
    if lower v == "true" then
      qs.filter (fun b => b.actual_return_date.isNone)
    else if lower v == "false" then
      qs.filter (fun b => b.actual_return_date.isSome)
    else
      qs

/-- A request touching inventory: a borrow-creation or a return. -/
inductive LibraryOp where
  | borrow (user_id book_id : Nat) (expected_return_date today : Int)
      (fresh_id fresh_url : String)
  | return_borrowing (borrowing_id actor_id : Nat) (actor_is_staff : Bool)
      (today : Int) (fresh_id fresh_url : String)
deriving DecidableEq, Repr

/-- State after one request (the response is discarded). -/
def apply_op (s : LibraryState) : LibraryOp → LibraryState
  | LibraryOp.borrow uid bid erd today fid furl =>
    (perform_create s uid bid erd today fid furl).2
  | LibraryOp.return_borrowing bid actor staff today fid furl =>
    (return_borrowing s bid actor staff today fid furl).2

/-- State after a sequence of requests. -/
def run_ops (s : LibraryState) (ops : List LibraryOp) : LibraryState :=
  ops.foldl apply_op s

/-- Pointwise inventory change of the book with id `book_id` by `d`. -/
def inventory_adjust (books : List Book) (book_id : Nat) (d : Int) :
    List Book :=
  books.map (fun b =>
    if b.id == book_id then { b with inventory := b.inventory + d } else b)

/-- The effect of one successful iteration of the expired-session sweep
on one payment row: `PENDING` rows whose gateway lookup reports
`"expired"` are flipped to `EXPIRED`, all other rows are untouched. -/
def sweep_one (retrieve : String → Except String SessionLookup)
    (p : Payment) : Payment :=
  if p.status = PaymentStatus.PENDING then
    match retrieve p.session_id with
    | Except.ok session =>
      if session.status == "expired" then
        { p with status := PaymentStatus.EXPIRED }
      else p
    | Except.error _ => p
  else p

/-! Concrete fixtures used to evaluate the operations on explicit
inputs. -/

/-- A book at 1.00 daily fee whose copy is currently out on loan. -/
def demo_book : Book :=
  { id := 1, title := "Clean Architecture", inventory := 0,
    daily_fee_cents := 100 }

/-- An open borrowing of `demo_book` by user 7, due on day 10. -/
def demo_borrowing : Borrowing :=
  { id := 1, borrow_date := 0, expected_return_date := 10,
    actual_return_date := none, book_id := 1, user_id := 7 }

/-- State with one open borrowing and no payments. -/
def demo_state : LibraryState :=
  { books := [demo_book], borrowings := [demo_borrowing], payments := [],
    next_borrowing_id := 2, next_payment_id := 1 }

/-- Same as `demo_state` but the borrowing is already returned. -/
def demo_state_returned : LibraryState :=
  { books := [{ demo_book with inventory := 1 }],
    borrowings := [{ demo_borrowing with actual_return_date := some 9 }],
    payments := [], next_borrowing_id := 2, next_payment_id := 1 }

/-- A payment already confirmed `PAID`. -/
def demo_paid_payment : Payment :=
  { id := 1, status := PaymentStatus.PAID, type := PaymentType.PAYMENT,
    borrowing_id := 1, session_id := "cs_1", session_url := "https://s/1",
    money_to_pay_cents := 1000 }

/-- A payment whose checkout session has expired. -/
def demo_expired_payment : Payment :=
  { id := 2, status := PaymentStatus.EXPIRED, type := PaymentType.PAYMENT,
    borrowing_id := 1, session_id := "cs_2", session_url := "https://s/2",
    money_to_pay_cents := 1000 }

/-- State holding the two payments above. -/
def demo_payment_state : LibraryState :=
  { books := [demo_book],
    borrowings := [{ demo_borrowing with actual_return_date := some 9 }],
    payments := [demo_paid_payment, demo_expired_payment],
    next_borrowing_id := 2, next_payment_id := 3 }

/-- Gateway oracle: every session resolves as paid. -/
def demo_retrieve_paid : String → Except String SessionLookup :=
  fun sid =>
    Except.ok { id := sid, status := "complete", payment_status := "paid" }

/-- Gateway oracle: every lookup raises. -/
def demo_retrieve_fail : String → Except String SessionLookup :=
  fun _ => Except.error "stripe unreachable"

/-- Two `PENDING` payments awaiting the expired-session sweep. -/
def sweep_payment_1 : Payment :=
  { id := 1, status := PaymentStatus.PENDING, type := PaymentType.PAYMENT,
    borrowing_id := 1, session_id := "sess1", session_url := "https://s/a",
    money_to_pay_cents := 500 }

/-- Second pending payment, listed after `sweep_payment_1`. -/
def sweep_payment_2 : Payment :=
  { id := 2, status := PaymentStatus.PENDING, type := PaymentType.PAYMENT,
    borrowing_id := 1, session_id := "sess2", session_url := "https://s/b",
    money_to_pay_cents := 700 }

/-- Gateway oracle for the sweep: the first session's lookup raises,
the second session is reported expired. -/
def sweep_retrieve : String → Except String SessionLookup :=
  fun sid =>
    if sid == "sess1" then Except.error "stripe unreachable"
    else Except.ok { id := sid, status := "expired", payment_status := "unpaid" }

/-- State holding the two pending payments above. -/
def sweep_state : LibraryState :=
  { books := [], borrowings := [demo_borrowing],
    payments := [sweep_payment_1, sweep_payment_2],
    next_borrowing_id := 2, next_payment_id := 3 }

/-- A book with copies on the shelf. -/
def demo_book_in_stock : Book :=
  { id := 2, title := "Domain-Driven Design", inventory := 3,
    daily_fee_cents := 150 }

/-- State where user 7 already has a `PENDING` payment and the
requested book is in stock. -/
def demo_conflict_state : LibraryState :=
  { books := [demo_book_in_stock],
    borrowings := [demo_borrowing],
    payments := [{ id := 1, status := PaymentStatus.PENDING,
                   type := PaymentType.PAYMENT, borrowing_id := 1,
                   session_id := "cs_p", session_url := "https://p",
                   money_to_pay_cents := 500 }],
    next_borrowing_id := 2, next_payment_id := 2 }

/-- State with no payments and a book in stock. -/
def demo_create_state : LibraryState :=
  { books := [demo_book_in_stock], borrowings := [], payments := [],
    next_borrowing_id := 1, next_payment_id := 1 }

/-- State with no payments and a book that is out of stock. -/
def demo_out_of_stock_state : LibraryState :=
  { books := [demo_book], borrowings := [], payments := [],
    next_borrowing_id := 1, next_payment_id := 1 }

/-! ## General lemmas about keyed row updates -/

/-- A pointwise update that leaves the search key untouched commutes
with `find?`. -/
theorem find?_map_keyed {α : Type} (l : List α) (p : α → Bool) (f : α → α)
    (hf : ∀ a, p (f a) = p a) :
    (l.map (fun a => if p a then f a else a)).find? p =
      (l.find? p).map f := by
  induction l with
  | nil => rfl
  | cons a l ih =>
    cases hpa : p a with
    | true =>
      have hhead : (if p a = true then f a else a) = f a := if_pos hpa
      rw [List.map_cons, hhead,
        List.find?_cons_of_pos _ (by rw [hf a]; exact hpa),
        List.find?_cons_of_pos _ hpa]
      rfl
    | false =>
      have hhead : (if p a = true then f a else a) = a := by
        rw [hpa]; exact if_neg (by simp)
      rw [List.map_cons, hhead,
        List.find?_cons_of_neg _ (by rw [hpa]; simp),
        List.find?_cons_of_neg _ (by rw [hpa]; simp)]
      exact ih

/-- Replacing every key-matching row by a fixed matching row `c` makes
`find?` return `c`, provided the key was present. -/
theorem find?_map_replace {α : Type} (l : List α) (p : α → Bool) (c : α)
    (hc : p c = true) (x : α) (hx : l.find? p = some x) :
    (l.map (fun a => if p a then c else a)).find? p = some c := by
  induction l with
  | nil => simp at hx
  | cons a l ih =>
    cases hpa : p a with
    | true =>
      have hhead : (if p a = true then c else a) = c := if_pos hpa
      rw [List.map_cons, hhead, List.find?_cons_of_pos _ hc]
    | false =>
      have hhead : (if p a = true then c else a) = a := by
        rw [hpa]; exact if_neg (by simp)
      rw [List.map_cons, hhead,
        List.find?_cons_of_neg _ (by rw [hpa]; simp)]
      rw [List.find?_cons_of_neg _ (by rw [hpa]; simp)] at hx
      exact ih hx

/-- `find?` skips a prefix on which the predicate is everywhere false. -/
theorem find?_append_of_prefix_false {α : Type} (l₁ l₂ : List α)
    (p : α → Bool) (h : ∀ a ∈ l₁, p a = false) :
    (l₁ ++ l₂).find? p = l₂.find? p := by
  induction l₁ with
  | nil => rfl
  | cons a l₁ ih =>
    rw [List.cons_append,
      List.find?_cons_of_neg _
        (by rw [h a (List.mem_cons_self a l₁)]; exact Bool.false_ne_true)]
    exact ih (fun a ha => h a (List.mem_cons_of_mem _ ha))

/-- A row whose key does not match survives a keyed update unchanged. -/
theorem mem_map_keyed_of_no_match {α : Type} (l : List α) (p : α → Bool)
    (f : α → α) (x : α) (hx : x ∈ l) (hpx : p x = false) :
    x ∈ l.map (fun a => if p a then f a else a) := by
  have h := List.mem_map_of_mem (fun a => if p a then f a else a) hx
  simpa [hpx] using h

/-! ## Claim theorems -/

/-- **C1.**  The claim states that a late return creates exactly one
FINE payment with `money_to_pay = daily_fee * overdue_days * 2`.  The
code multiplies by `FINE_MULTIPLIER = 2` twice — once inside
`calculate_amount` and once more in
`create_stripe_session_for_borrowing` — so on a 1-day-late return of a
1.00-daily-fee book it records 4.00 (400 cents) instead of the claimed
2.00 (200 cents).  Returning exactly on the expected date indeed
creates no FINE payment. -/
theorem fine_money_is_quadruple_not_double :
    (return_borrowing demo_state 1 7 false 11 "cs_fine" "https://s/f").1 =
      ReturnResult.returned_with_fine 1 ∧
    ((return_borrowing demo_state 1 7 false 11 "cs_fine"
        "https://s/f").2.payments.map
      (fun p => (p.type, p.status, p.money_to_pay_cents))) =
      [(PaymentType.FINE, PaymentStatus.PENDING, 400)] ∧
    demo_book.daily_fee_cents * ((11 : Int) - demo_borrowing.expected_return_date) *
      FINE_MULTIPLIER = 200 ∧
    (400 : Int) ≠ 200 ∧
    (return_borrowing demo_state 1 7 false 10 "cs" "https://s").2.payments =
      [] := by
  refine ⟨by decide, by decide, by decide, by decide, by decide⟩

/-- **C5.**  A return request for a borrowing whose
`actual_return_date` is already set (by an authorized actor) answers
400 "already returned" and leaves the entire state unchanged. -/
theorem return_already_returned_unchanged (s : LibraryState)
    (bid actor : Nat) (staff : Bool) (today : Int) (fid furl : String)
    (borrowing : Borrowing)
    (hfind : s.borrowings.find? (fun b => b.id == bid) = some borrowing)
    (hauth : staff = true ∨ borrowing.user_id = actor)
    (hret : borrowing.actual_return_date.isSome = true) :
    return_borrowing s bid actor staff today fid furl =
      (ReturnResult.already_returned, s) := by
  have hcond : (!staff && borrowing.user_id != actor) = false := by
    rcases hauth with h | h
    · simp [h]
    · simp [h]
  simp only [return_borrowing, hfind, hcond, hret]
  rfl

/-- Witness for C5 on an explicit already-returned borrowing. -/
theorem return_already_returned_unchanged_witness :
    return_borrowing demo_state_returned 1 7 false 20 "cs" "https://s" =
      (ReturnResult.already_returned, demo_state_returned) :=
  return_already_returned_unchanged demo_state_returned 1 7 false 20 "cs"
    "https://s" { demo_borrowing with actual_return_date := some 9 }
    (by decide) (Or.inr (by decide)) (by decide)

/-- **C7.**  The success-check on a payment already `PAID`, with the
gateway still reporting the session paid, mutates nothing (the
resulting state is the input state) and returns the same paid
confirmation, so repeated calls are no-ops returning equivalent
confirmations. -/
theorem success_check_idempotent_on_paid (s : LibraryState) (pid : Nat)
    (retrieve : String → Except String SessionLookup) (payment : Payment)
    (session : SessionLookup)
    (hfind : s.payments.find? (fun p => p.id == pid) = some payment)
    (hpaid : payment.status = PaymentStatus.PAID)
    (hok : retrieve payment.session_id = Except.ok session)
    (hps : session.payment_status = "paid") :
    payment_success_check s pid retrieve =
      (SuccessResult.paid_confirmation
        ("Session " ++ session.id ++ " was successfully paid. Thank you!"),
       s) := by
  simp only [payment_success_check, hfind, hok, hps, hpaid]
  rfl

/-- Witness for C7 on an explicit `PAID` payment. -/
theorem success_check_idempotent_on_paid_witness :
    payment_success_check demo_payment_state 1 demo_retrieve_paid =
      (SuccessResult.paid_confirmation
        "Session cs_1 was successfully paid. Thank you!",
       demo_payment_state) :=
  success_check_idempotent_on_paid demo_payment_state 1 demo_retrieve_paid
    demo_paid_payment
    { id := "cs_1", status := "complete", payment_status := "paid" }
    (by decide) rfl rfl rfl

/-- **C8.**  When the gateway session lookup raises during the
success-check, the endpoint answers 400 with the error and the state —
in particular the payment's `status`, `session_id`, `session_url` — is
unchanged. -/
theorem success_check_gateway_error_no_mutation (s : LibraryState)
    (pid : Nat) (retrieve : String → Except String SessionLookup)
    (payment : Payment) (e : String)
    (hfind : s.payments.find? (fun p => p.id == pid) = some payment)
    (herr : retrieve payment.session_id = Except.error e) :
    payment_success_check s pid retrieve =
      (SuccessResult.gateway_error e, s) := by
  simp only [payment_success_check, hfind, herr]

/-- Witness for C8 on an explicit failing gateway. -/
theorem success_check_gateway_error_no_mutation_witness :
    payment_success_check demo_payment_state 1 demo_retrieve_fail =
      (SuccessResult.gateway_error "stripe unreachable",
       demo_payment_state) :=
  success_check_gateway_error_no_mutation demo_payment_state 1
    demo_retrieve_fail demo_paid_payment "stripe unreachable"
    (by decide) rfl

/-- **C6.**  `renew` answers 400 "not expired" for any payment whose
status is not `EXPIRED`, without mutation; on an `EXPIRED` payment it
answers the fresh session identifiers, the stored row gets
`status = PENDING` and the new `session_id`/`session_url` while every
other field (`money_to_pay`, `type`, `borrowing`) is kept, and all
other rows, books and borrowings are untouched. -/
theorem renew_spec (s : LibraryState) (pid : Nat) (fid furl : String)
    (payment : Payment)
    (hfind : s.payments.find? (fun p => p.id == pid) = some payment) :
    (payment.status ≠ PaymentStatus.EXPIRED →
      renew s pid fid furl = (RenewResult.not_expired, s)) ∧
    (payment.status = PaymentStatus.EXPIRED →
      (renew s pid fid furl).1 = RenewResult.renewed fid furl ∧
      (renew s pid fid furl).2.payments.find? (fun p => p.id == pid) =
        some { payment with
                 status := PaymentStatus.PENDING,
                 session_id := fid,
                 session_url := furl } ∧
      (∀ q ∈ s.payments, q.id ≠ pid →
        q ∈ (renew s pid fid furl).2.payments) ∧
      (renew s pid fid furl).2.books = s.books ∧
      (renew s pid fid furl).2.borrowings = s.borrowings) := by
  constructor
  · intro h
    simp only [renew, hfind, if_pos h]
  · intro h
    have hne : ¬payment.status ≠ PaymentStatus.EXPIRED := by simp [h]
    refine ⟨?_, ?_, ?_, ?_, ?_⟩
    · simp only [renew, hfind, if_neg hne, renew_stripe_session]
    · simp only [renew, hfind, if_neg hne, renew_stripe_session]
      rw [find?_map_keyed s.payments (fun p => p.id == pid)
          (fun p => { p with
                        status := PaymentStatus.PENDING,
                        session_id := fid,
                        session_url := furl })
          (fun a => rfl),
        hfind]
      rfl
    · intro q hq hqid
      simp only [renew, hfind, if_neg hne, renew_stripe_session]
      exact mem_map_keyed_of_no_match s.payments (fun p => p.id == pid) _ q hq
        (by simp [hqid])
    · simp only [renew, hfind, if_neg hne]
    · simp only [renew, hfind, if_neg hne]

/-- Witness for C6: renewing the expired payment and refusing the
paid one. -/
theorem renew_spec_witness :
    (renew demo_payment_state 2 "cs_new" "https://n").1 =
      RenewResult.renewed "cs_new" "https://n" ∧
    (renew demo_payment_state 2 "cs_new" "https://n").2.payments.find?
        (fun p => p.id == 2) =
      some { demo_expired_payment with
               status := PaymentStatus.PENDING,
               session_id := "cs_new",
               session_url := "https://n" } ∧
    renew demo_payment_state 1 "cs_x" "https://x" =
      (RenewResult.not_expired, demo_payment_state) :=
  ⟨((renew_spec demo_payment_state 2 "cs_new" "https://n"
      demo_expired_payment (by decide)).2 rfl).1,
   ((renew_spec demo_payment_state 2 "cs_new" "https://n"
      demo_expired_payment (by decide)).2 rfl).2.1,
   (renew_spec demo_payment_state 1 "cs_x" "https://x"
      demo_paid_payment (by decide)).1 (by decide)⟩

/-- **C9.**  The `is_active` filter: any value other than a
case-insensitive `"true"`/`"false"` applies no filter (the caller's
full visible set is returned); `"true"`/`"false"` are matched through
`lower()`, i.e. case-insensitively. -/
theorem is_active_filter_spec (v : String) (qs : List Borrowing) :
    (lower v ≠ "true" → lower v ≠ "false" →
      apply_is_active_filter (some v) qs = qs) ∧
    (lower v = "true" →
      apply_is_active_filter (some v) qs =
        qs.filter (fun b => b.actual_return_date.isNone)) ∧
    (lower v = "false" →
      apply_is_active_filter (some v) qs =
        qs.filter (fun b => b.actual_return_date.isSome)) := by
  refine ⟨?_, ?_, ?_⟩
  · intro h1 h2
    have hb1 : (lower v == "true") = false := by simp [h1]
    have hb2 : (lower v == "false") = false := by simp [h2]
    simp [apply_is_active_filter, hb1, hb2]
  · intro h
    simp [apply_is_active_filter, h]
  · intro h
    simp [apply_is_active_filter, h]

/-- Witness for C9: a junk value applies no filter; `"TRUE"`/`"FaLsE"`
filter case-insensitively. -/
theorem is_active_filter_spec_witness :
    apply_is_active_filter (some "whatever") demo_state_returned.borrowings =
      demo_state_returned.borrowings ∧
    apply_is_active_filter (some "TRUE") demo_state_returned.borrowings =
      demo_state_returned.borrowings.filter
        (fun b => b.actual_return_date.isNone) ∧
    apply_is_active_filter (some "FaLsE") demo_state_returned.borrowings =
      demo_state_returned.borrowings.filter
        (fun b => b.actual_return_date.isSome) :=
  ⟨(is_active_filter_spec "whatever" demo_state_returned.borrowings).1
      (by decide) (by decide),
   (is_active_filter_spec "TRUE" demo_state_returned.borrowings).2.1
      (by decide),
   (is_active_filter_spec "FaLsE" demo_state_returned.borrowings).2.2
      (by decide)⟩

/-- **C2 counterexample.**  With two `PENDING` payments where the
gateway lookup of the first raises and reports the second's session
expired, the sweep leaves the second payment `PENDING`: the failure on
the first payment does prevent the second from being transitioned,
refuting per-item isolation. -/
theorem sweep_failure_not_isolated :
    sweep_retrieve sweep_payment_1.session_id =
      Except.error "stripe unreachable" ∧
    sweep_retrieve sweep_payment_2.session_id =
      Except.ok
        { id := "sess2", status := "expired", payment_status := "unpaid" } ∧
    sweep_payment_1.status = PaymentStatus.PENDING ∧
    sweep_payment_2.status = PaymentStatus.PENDING ∧
    (track_expired_sessions sweep_state sweep_retrieve).payments.map
        Payment.status =
      [PaymentStatus.PENDING, PaymentStatus.PENDING] := by
  refine ⟨rfl, rfl, rfl, rfl, by decide⟩

/-- **C2 amended.**  The sweep walks the pending payments in order and
aborts at the first gateway failure: every payment before the failing
one is transitioned exactly as the gateway reported (`sweep_one`),
while the failing payment and everything after it are left
untouched. -/
theorem sweep_aborts_at_first_gateway_failure
    (retrieve : String → Except String SessionLookup)
    (pre suf : List Payment) (p : Payment) (e : String)
    (hpre : ∀ q ∈ pre, q.status = PaymentStatus.PENDING →
      ∃ r, retrieve q.session_id = Except.ok r)
    (hp : p.status = PaymentStatus.PENDING)
    (herr : retrieve p.session_id = Except.error e) :
    track_expired_go retrieve (pre ++ p :: suf) =
      pre.map (sweep_one retrieve) ++ p :: suf := by
  induction pre with
  | nil =>
    simp [track_expired_go, hp, herr]
  | cons q pre ih =>
    have ih' := ih (fun x hx => hpre x (List.mem_cons_of_mem _ hx))
    by_cases hqs : q.status = PaymentStatus.PENDING
    · obtain ⟨r, hr⟩ := hpre q (List.mem_cons_self q pre) hqs
      simp only [List.cons_append, track_expired_go, if_pos hqs, hr,
        List.map_cons, List.append_eq]
      rw [ih']
      simp [sweep_one, hqs, hr]
    · simp only [List.cons_append, track_expired_go, if_neg hqs,
        List.map_cons, List.append_eq]
      rw [ih']
      simp [sweep_one, hqs]

/-- Witness for the amended C2: one successfully swept payment before
the failing one, which ends the sweep. -/
theorem sweep_aborts_at_first_gateway_failure_witness :
    track_expired_go sweep_retrieve
        ([sweep_payment_2] ++ sweep_payment_1 :: []) =
      [sweep_payment_2].map (sweep_one sweep_retrieve) ++
        sweep_payment_1 :: [] :=
  sweep_aborts_at_first_gateway_failure sweep_retrieve [sweep_payment_2] []
    sweep_payment_1 "stripe unreachable"
    (fun q hq _ => by
      rcases List.mem_singleton.mp hq with rfl
      exact ⟨{ id := "sess2", status := "expired", payment_status := "unpaid" },
        rfl⟩)
    (by decide) rfl

/-- A user with a `PENDING` payment on one of their borrowings is
flagged by the pending-payments check. -/
theorem user_has_pending_of_mem (S : LibraryState) (uid : Nat) (p : Payment)
    (hp : p ∈ S.payments) (hst : p.status = PaymentStatus.PENDING)
    (b : Borrowing)
    (hb : S.borrowings.find? (fun x => x.id == p.borrowing_id) = some b)
    (hu : b.user_id = uid) :
    user_has_pending_payment S uid = true := by
  unfold user_has_pending_payment
  rw [List.any_eq_true]
  exact ⟨p, hp, by simp [hst, payment_belongs_to_user, hb, hu]⟩

/-- Borrow-creation answers the conflict error and leaves the state
untouched whenever the pending-payments check fires. -/
theorem perform_create_conflict (S : LibraryState) (uid bid2 : Nat)
    (erd t2 : Int) (f2 u2 : String)
    (h : user_has_pending_payment S uid = true) :
    perform_create S uid bid2 erd t2 f2 u2 =
      (BorrowCreateResult.conflict_pending_payments, S) := by
  simp [perform_create, h]

/-- **C3.**  Borrow-creation: a user with any `PENDING` payment gets
the conflict error with the whole state (inventory, borrowings)
unchanged, regardless of the requested book's stock; without a pending
payment, a book at `inventory <= 0` gets the out-of-stock error with
the state unchanged; otherwise exactly the requested book's inventory
drops by 1 and the new borrowing is appended. -/
theorem perform_create_spec (s : LibraryState) (uid bid : Nat)
    (erd today : Int) (fid furl : String) :
    (user_has_pending_payment s uid = true →
      perform_create s uid bid erd today fid furl =
        (BorrowCreateResult.conflict_pending_payments, s)) ∧
    (∀ book, user_has_pending_payment s uid = false →
      s.books.find? (fun b => b.id == bid) = some book →
      book.inventory ≤ 0 →
      perform_create s uid bid erd today fid furl =
        (BorrowCreateResult.out_of_stock, s)) ∧
    (∀ book, user_has_pending_payment s uid = false →
      s.books.find? (fun b => b.id == bid) = some book →
      0 < book.inventory →
      (perform_create s uid bid erd today fid furl).1 =
        BorrowCreateResult.created s.next_borrowing_id ∧
      (perform_create s uid bid erd today fid furl).2.books =
        inventory_adjust s.books bid (-1) ∧
      (perform_create s uid bid erd today fid furl).2.borrowings =
        s.borrowings ++
          [{ id := s.next_borrowing_id, borrow_date := today,
             expected_return_date := erd, actual_return_date := none,
             book_id := bid, user_id := uid }]) := by
  refine ⟨?_, ?_, ?_⟩
  · intro h
    exact perform_create_conflict s uid bid erd today fid furl h
  · intro book h hfind hempty
    have hcond : ¬user_has_pending_payment s uid = true := by simp [h]
    simp only [perform_create, if_neg hcond, hfind, if_pos hempty]
  · intro book h hfind hstock
    have hcond : ¬user_has_pending_payment s uid = true := by simp [h]
    have hstock' : ¬book.inventory ≤ 0 := by omega
    refine ⟨?_, ?_, ?_⟩
    · simp only [perform_create, if_neg hcond, hfind, if_neg hstock']
    · simp only [perform_create, if_neg hcond, hfind, if_neg hstock',
        inventory_adjust]
      rfl
    · simp only [perform_create, if_neg hcond, hfind, if_neg hstock']

/-- Witness for C3: the three outcomes on explicit states. -/
theorem perform_create_spec_witness :
    perform_create demo_conflict_state 7 2 20 15 "cs" "https://c" =
      (BorrowCreateResult.conflict_pending_payments, demo_conflict_state) ∧
    perform_create demo_out_of_stock_state 7 1 20 15 "cs" "https://c" =
      (BorrowCreateResult.out_of_stock, demo_out_of_stock_state) ∧
    (perform_create demo_create_state 7 2 20 15 "cs" "https://c").1 =
      BorrowCreateResult.created 1 ∧
    (perform_create demo_create_state 7 2 20 15 "cs" "https://c").2.books =
      inventory_adjust demo_create_state.books 2 (-1) :=
  ⟨(perform_create_spec demo_conflict_state 7 2 20 15 "cs" "https://c").1
      (by decide),
   (perform_create_spec demo_out_of_stock_state 7 1 20 15 "cs" "https://c").2.1
      demo_book (by decide) (by decide) (by decide),
   ((perform_create_spec demo_create_state 7 2 20 15 "cs" "https://c").2.2
      demo_book_in_stock (by decide) (by decide) (by decide)).1,
   ((perform_create_spec demo_create_state 7 2 20 15 "cs" "https://c").2.2
      demo_book_in_stock (by decide) (by decide) (by decide)).2.1⟩

/-- **C10.**  An overdue return creates its FINE payment with the model
default status `PENDING` (no `status` is passed to
`Payment.objects.create`), and a subsequent borrow-creation by the same
user is refused with the conflict error. -/
theorem fine_payment_pending_blocks_borrowing (s : LibraryState)
    (bid actor : Nat) (staff : Bool) (today : Int) (fid furl : String)
    (borrowing : Borrowing) (book : Book)
    (hbfind : s.borrowings.find? (fun b => b.id == bid) = some borrowing)
    (hauth : staff = true ∨ borrowing.user_id = actor)
    (hopen : borrowing.actual_return_date = none)
    (hbook : s.books.find? (fun b => b.id == borrowing.book_id) = some book)
    (hover : borrowing.expected_return_date < today) :
    (return_borrowing s bid actor staff today fid furl).1 =
      ReturnResult.returned_with_fine s.next_payment_id ∧
    (∃ p ∈ (return_borrowing s bid actor staff today fid furl).2.payments,
      p.id = s.next_payment_id ∧ p.type = PaymentType.FINE ∧
      p.status = PaymentStatus.PENDING ∧ p.borrowing_id = bid) ∧
    (∀ uid (bid2 : Nat) (erd t2 : Int) (f2 u2 : String),
      uid = borrowing.user_id →
      perform_create (return_borrowing s bid actor staff today fid
          furl).2 uid bid2 erd t2 f2 u2 =
        (BorrowCreateResult.conflict_pending_payments,
         (return_borrowing s bid actor staff today fid furl).2)) := by
  have hcond : (!staff && borrowing.user_id != actor) = false := by
    rcases hauth with h | h
    · simp [h]
    · simp [h]
  have hsome : borrowing.actual_return_date.isSome = false := by
    rw [hopen]; rfl
  have hret : return_borrowing s bid actor staff today fid furl =
      (ReturnResult.returned_with_fine s.next_payment_id,
       { s with
           books := s.books.map (fun b =>
             if b.id == borrowing.book_id then
               { b with inventory := b.inventory + 1 }
             else b),
           borrowings := s.borrowings.map (fun b =>
             if b.id == bid then
               { borrowing with actual_return_date := some today }
             else b),
           payments := s.payments ++
             [{ id := s.next_payment_id, status := PaymentStatus.PENDING,
                type := PaymentType.FINE, borrowing_id := bid,
                session_id := fid, session_url := furl,
                money_to_pay_cents :=
                  (today - borrowing.expected_return_date) *
                    book.daily_fee_cents * FINE_MULTIPLIER *
                    FINE_MULTIPLIER }],
           next_payment_id := s.next_payment_id + 1 }) := by
    simp only [return_borrowing, hbfind, hcond, hsome, hbook,
      if_pos hover, create_stripe_session_for_borrowing, calculate_amount]
    rfl
  have hkey : (borrowing.id == bid) = true := by
    have hk := List.find?_some hbfind
    exact hk
  refine ⟨?_, ?_, ?_⟩
  · rw [hret]
  · rw [hret]
    exact ⟨_, List.mem_append_right _ (List.mem_singleton_self _),
      rfl, rfl, rfl, rfl⟩
  · intro uid bid2 erd t2 f2 u2 huid
    rw [hret]
    apply perform_create_conflict
    apply user_has_pending_of_mem _ uid
      { id := s.next_payment_id, status := PaymentStatus.PENDING,
        type := PaymentType.FINE, borrowing_id := bid,
        session_id := fid, session_url := furl,
        money_to_pay_cents :=
          (today - borrowing.expected_return_date) *
            book.daily_fee_cents * FINE_MULTIPLIER * FINE_MULTIPLIER }
      (List.mem_append_right _ (List.mem_singleton_self _)) rfl
      { borrowing with actual_return_date := some today }
      (find?_map_replace s.borrowings (fun b => b.id == bid)
        { borrowing with actual_return_date := some today } hkey
        borrowing hbfind)
      (huid ▸ rfl)

/-- Witness for C10: the overdue return of `demo_state` yields a
`PENDING` FINE payment and blocks user 7's next borrowing. -/
theorem fine_payment_pending_blocks_borrowing_witness :
    (return_borrowing demo_state 1 7 false 11 "cs_f" "https://f").1 =
      ReturnResult.returned_with_fine 1 ∧
    (∃ p ∈ (return_borrowing demo_state 1 7 false 11 "cs_f"
        "https://f").2.payments,
      p.id = 1 ∧ p.type = PaymentType.FINE ∧
      p.status = PaymentStatus.PENDING ∧ p.borrowing_id = 1) ∧
    perform_create
        (return_borrowing demo_state 1 7 false 11 "cs_f" "https://f").2
        7 1 20 15 "cs2" "https://2" =
      (BorrowCreateResult.conflict_pending_payments,
       (return_borrowing demo_state 1 7 false 11 "cs_f" "https://f").2) := by
  have h := fine_payment_pending_blocks_borrowing demo_state 1 7 false 11
    "cs_f" "https://f" demo_borrowing demo_book (by decide)
    (Or.inr (by decide)) (by decide) (by decide) (by decide)
  exact ⟨h.1, h.2.1, h.2.2 7 1 20 15 "cs2" "https://2" (by decide)⟩

/-- Borrow-creation either succeeds — on a book that was found with
positive stock — and its only effect on the shelf is a `-1` on that
book, or it fails and the shelf is untouched. -/
theorem perform_create_books_cases (s : LibraryState) (uid bid : Nat)
    (erd t : Int) (f u : String) :
    (∃ book, s.books.find? (fun b => b.id == bid) = some book ∧
      0 < book.inventory ∧
      (perform_create s uid bid erd t f u).1 =
        BorrowCreateResult.created s.next_borrowing_id ∧
      (perform_create s uid bid erd t f u).2.books =
        inventory_adjust s.books bid (-1)) ∨
    (perform_create s uid bid erd t f u).2.books = s.books := by
  by_cases hp : user_has_pending_payment s uid = true
  · right
    simp [perform_create, hp]
  · cases hfind : s.books.find? (fun b => b.id == bid) with
    | none =>
      right
      simp [perform_create, hp, hfind]
    | some book =>
      by_cases hs : book.inventory ≤ 0
      · right
        simp only [perform_create, if_neg hp, hfind, if_pos hs]
      · left
        refine ⟨book, rfl, by omega, ?_, ?_⟩
        · simp only [perform_create, if_neg hp, hfind, if_neg hs]
        · simp only [perform_create, if_neg hp, hfind, if_neg hs,
            inventory_adjust]
          rfl

/-- A return either succeeds — with or without a fine — and its only
effect on the shelf is a `+1` on the returned book, or it fails and
the shelf is untouched. -/
theorem return_books_cases (s : LibraryState) (brid actor : Nat)
    (staff : Bool) (t : Int) (f u : String) :
    (∃ bkid, ((return_borrowing s brid actor staff t f u).1 =
        ReturnResult.returned_ok ∨
      ∃ pid, (return_borrowing s brid actor staff t f u).1 =
        ReturnResult.returned_with_fine pid) ∧
      (return_borrowing s brid actor staff t f u).2.books =
        inventory_adjust s.books bkid 1) ∨
    (return_borrowing s brid actor staff t f u).2.books = s.books := by
  cases hbf : s.borrowings.find? (fun b => b.id == brid) with
  | none =>
    right
    simp [return_borrowing, hbf]
  | some borrowing =>
    by_cases hcond : (!staff && borrowing.user_id != actor) = true
    · right
      simp [return_borrowing, hbf, hcond]
    · have hcond' : (!staff && borrowing.user_id != actor) = false :=
        Bool.eq_false_iff.mpr hcond
      cases hret : borrowing.actual_return_date.isSome with
      | true =>
        right
        simp [return_borrowing, hbf, hcond', hret]
      | false =>
        cases hbk : s.books.find? (fun b => b.id == borrowing.book_id) with
        | none =>
          right
          simp [return_borrowing, hbf, hcond', hret, hbk]
        | some book =>
          left
          refine ⟨borrowing.book_id, ?_, ?_⟩
          · by_cases hover : borrowing.expected_return_date < t
            · exact Or.inr ⟨s.next_payment_id, by
                simp [return_borrowing, hbf, hcond', hret, hbk, hover]⟩
            · exact Or.inl (by
                simp [return_borrowing, hbf, hcond', hret, hbk, hover])
          · by_cases hover : borrowing.expected_return_date < t
            · simp [return_borrowing, hbf, hcond', hret, hbk, hover,
                inventory_adjust]
            · simp [return_borrowing, hbf, hcond', hret, hbk, hover,
                inventory_adjust]

/-- Keyed inventory updates do not change the id column. -/
theorem books_map_id_of_adjust (books : List Book) (bid : Nat) (d : Int) :
    (inventory_adjust books bid d).map Book.id = books.map Book.id := by
  simp only [inventory_adjust, List.map_map]
  congr 1
  funext b
  by_cases h : (b.id == bid) = true
  · simp [Function.comp, h]
  · simp [Function.comp, h]

/-- Incrementing stock preserves non-negativity. -/
theorem inv_adjust_pos (books : List Book) (bid : Nat)
    (hinv : ∀ b ∈ books, 0 ≤ b.inventory) :
    ∀ b ∈ inventory_adjust books bid 1, 0 ≤ b.inventory := by
  intro b' hb'
  obtain ⟨b, hb, rfl⟩ := List.mem_map.mp hb'
  by_cases h : (b.id == bid) = true
  · have := hinv b hb
    simp only [if_pos h]
    omega
  · simp only [if_neg h]
    exact hinv b hb

/-- Decrementing the stock of a book that was found with positive
inventory preserves non-negativity, given unique book ids. -/
theorem inv_adjust_neg (books : List Book) (bid : Nat) (book : Book)
    (hids : (books.map Book.id).Nodup)
    (hfind : books.find? (fun b => b.id == bid) = some book)
    (hpos : 0 < book.inventory)
    (hinv : ∀ b ∈ books, 0 ≤ b.inventory) :
    ∀ b ∈ inventory_adjust books bid (-1), 0 ≤ b.inventory := by
  intro b' hb'
  obtain ⟨b, hb, rfl⟩ := List.mem_map.mp hb'
  by_cases h : (b.id == bid) = true
  · have hbookmem : book ∈ books := List.mem_of_find?_eq_some hfind
    have hbookkey : (book.id == bid) = true := by
      have hk := List.find?_some hfind
      exact hk
    have hid : b.id = book.id := by
      have h1 : b.id = bid := by simpa using h
      have h2 : book.id = bid := by simpa using hbookkey
      rw [h1, h2]
    have hbb : b = book := List.inj_on_of_nodup_map hids hb hbookmem hid
    subst hbb
    simp only [if_pos h]
    omega
  · simp only [if_neg h]
    exact hinv b hb

/-- One request preserves both the non-negative-inventory invariant and
the id column of the shelf. -/
theorem apply_op_step (s : LibraryState) (op : LibraryOp)
    (hids : (s.books.map Book.id).Nodup)
    (hinv : ∀ b ∈ s.books, 0 ≤ b.inventory) :
    (∀ b ∈ (apply_op s op).books, 0 ≤ b.inventory) ∧
    (apply_op s op).books.map Book.id = s.books.map Book.id := by
  cases op with
  | borrow uid bid erd today fid furl =>
    rcases perform_create_books_cases s uid bid erd today fid furl with
      ⟨book, hfind, hpos, _, heq⟩ | heq
    · constructor
      · show ∀ b ∈ (perform_create s uid bid erd today fid furl).2.books, _
        rw [heq]
        exact inv_adjust_neg s.books bid book hids hfind hpos hinv
      · show (perform_create s uid bid erd today fid furl).2.books.map _ = _
        rw [heq]
        exact books_map_id_of_adjust s.books bid (-1)
    · constructor
      · show ∀ b ∈ (perform_create s uid bid erd today fid furl).2.books, _
        rw [heq]
        exact hinv
      · show (perform_create s uid bid erd today fid furl).2.books.map _ = _
        rw [heq]
  | return_borrowing brid actor staff today fid furl =>
    rcases return_books_cases s brid actor staff today fid furl with
      ⟨bkid, _, heq⟩ | heq
    · constructor
      · show ∀ b ∈ (return_borrowing s brid actor staff today fid furl).2.books, _
        rw [heq]
        exact inv_adjust_pos s.books bkid hinv
      · show (return_borrowing s brid actor staff today fid furl).2.books.map _ = _
        rw [heq]
        exact books_map_id_of_adjust s.books bkid 1
    · constructor
      · show ∀ b ∈ (return_borrowing s brid actor staff today fid furl).2.books, _
        rw [heq]
        exact hinv
      · show (return_borrowing s brid actor staff today fid furl).2.books.map _ = _
        rw [heq]

/-- The non-negative-inventory invariant holds after any request
sequence (given unique book ids). -/
theorem run_ops_inv (ops : List LibraryOp) : ∀ s : LibraryState,
    (s.books.map Book.id).Nodup → (∀ b ∈ s.books, 0 ≤ b.inventory) →
    ∀ b ∈ (run_ops s ops).books, 0 ≤ b.inventory := by
  induction ops with
  | nil => intro s _ hinv; exact hinv
  | cons op ops ih =>
    intro s hids hinv
    have hstep := apply_op_step s op hids hinv
    exact ih (apply_op s op) (by rw [hstep.2]; exact hids) hstep.1

/-- Un-borrowing a just-decremented book restores the shelf. -/
theorem adjust_dec_inc_cancel (books : List Book) (bid : Nat) :
    (books.map (fun b =>
      if b.id == bid then { b with inventory := b.inventory - 1 }
      else b)).map (fun b =>
        if b.id == bid then { b with inventory := b.inventory + 1 }
        else b) = books := by
  rw [List.map_map]
  have hcomp : ((fun b : Book =>
      if b.id == bid then { b with inventory := b.inventory + 1 } else b) ∘
        (fun b : Book =>
          if b.id == bid then { b with inventory := b.inventory - 1 }
          else b)) = id := by
    funext b
    by_cases h : (b.id == bid) = true
    · have harith : b.inventory - 1 + 1 = b.inventory := by omega
      simp [Function.comp, h, harith]
    · simp [Function.comp, h]
  rw [hcomp, List.map_id]

/-- A successful borrow followed by the return of that borrowing (by
staff, so the ownership guard passes) restores the shelf exactly:
the `-1` of the borrow and the `+1` of the return cancel. -/
theorem borrow_return_cycle (s : LibraryState) (uid bid : Nat)
    (erd t₁ : Int) (f₁ u₁ : String) (actor : Nat) (t₂ : Int)
    (f₂ u₂ : String) (brid : Nat) (s₁ : LibraryState)
    (hfresh : ∀ b ∈ s.borrowings, b.id ≠ s.next_borrowing_id)
    (hcr : perform_create s uid bid erd t₁ f₁ u₁ =
      (BorrowCreateResult.created brid, s₁)) :
    (return_borrowing s₁ brid actor true t₂ f₂ u₂).2.books = s.books := by
  by_cases hp : user_has_pending_payment s uid = true
  · simp only [perform_create, if_pos hp] at hcr
    exact absurd (congrArg Prod.fst hcr) (by simp)
  · cases hfind : s.books.find? (fun b => b.id == bid) with
    | none =>
      simp only [perform_create, if_neg hp, hfind] at hcr
      exact absurd (congrArg Prod.fst hcr) (by simp)
    | some book =>
      by_cases hs : book.inventory ≤ 0
      · simp only [perform_create, if_neg hp, hfind, if_pos hs] at hcr
        exact absurd (congrArg Prod.fst hcr) (by simp)
      · simp only [perform_create, if_neg hp, hfind, if_neg hs,
          Prod.mk.injEq] at hcr
        obtain ⟨h1, h2⟩ := hcr
        have hbrid : s.next_borrowing_id = brid := by simpa using h1
        subst hbrid
        subst h2
        have hpre : ∀ a ∈ s.borrowings,
            ((a.id == s.next_borrowing_id) : Bool) = false := by
          intro a ha
          simpa using hfresh a ha
        have hfb : (s.borrowings ++
            ([{ id := s.next_borrowing_id, borrow_date := t₁,
                expected_return_date := erd, actual_return_date := none,
                book_id := bid, user_id := uid }] : List Borrowing)).find?
              (fun b => b.id == s.next_borrowing_id) =
            some { id := s.next_borrowing_id, borrow_date := t₁,
                   expected_return_date := erd,
                   actual_return_date := none, book_id := bid,
                   user_id := uid } := by
          rw [find?_append_of_prefix_false _ _ _ hpre]
          simp [List.find?]
        have hfbk : (s.books.map (fun b =>
            if b.id == bid then { b with inventory := b.inventory - 1 }
            else b)).find? (fun b => b.id == bid) =
            some { book with inventory := book.inventory - 1 } := by
          rw [find?_map_keyed s.books (fun b => b.id == bid)
              (fun b => { b with inventory := b.inventory - 1 })
              (fun a => rfl), hfind]
          rfl
        simp only [return_borrowing, hfb, hfbk, Bool.not_true,
          Bool.false_and, Option.isSome_none]
        by_cases hov : erd < t₂
        · simp only [if_pos hov]
          exact adjust_dec_inc_cancel s.books bid
        · simp only [if_neg hov]
          exact adjust_dec_inc_cancel s.books bid

/-- **C4.**  Inventory safety: starting from a shelf with unique book
ids and non-negative inventories, (i) `inventory >= 0` still holds
after any sequence of borrow/return requests; (ii) a borrow-creation
either succeeds and changes the shelf exactly by `-1` on the requested
book, or leaves the shelf unchanged; (iii) a return either succeeds and
changes the shelf exactly by `+1` on the returned book, or leaves it
unchanged; (iv) a full borrow/return cycle is net-zero: the shelf after
returning the created borrowing equals the original shelf. -/
theorem inventory_invariant_spec (s : LibraryState) (ops : List LibraryOp)
    (hids : (s.books.map Book.id).Nodup)
    (hinv : ∀ b ∈ s.books, 0 ≤ b.inventory) :
    (∀ b ∈ (run_ops s ops).books, 0 ≤ b.inventory) ∧
    (∀ (uid bid : Nat) (erd t : Int) (f u : String),
      ((∃ brid, (perform_create s uid bid erd t f u).1 =
          BorrowCreateResult.created brid) ∧
        (perform_create s uid bid erd t f u).2.books =
          inventory_adjust s.books bid (-1)) ∨
      (perform_create s uid bid erd t f u).2.books = s.books) ∧
    (∀ (brid actor : Nat) (staff : Bool) (t : Int) (f u : String),
      (∃ bkid, ((return_borrowing s brid actor staff t f u).1 =
            ReturnResult.returned_ok ∨
          ∃ pid, (return_borrowing s brid actor staff t f u).1 =
            ReturnResult.returned_with_fine pid) ∧
        (return_borrowing s brid actor staff t f u).2.books =
          inventory_adjust s.books bkid 1) ∨
      (return_borrowing s brid actor staff t f u).2.books = s.books) ∧
    (∀ (uid bid : Nat) (erd t₁ : Int) (f₁ u₁ : String) (actor : Nat)
        (t₂ : Int) (f₂ u₂ : String) (brid : Nat) (s₁ : LibraryState),
      (∀ b ∈ s.borrowings, b.id ≠ s.next_borrowing_id) →
      perform_create s uid bid erd t₁ f₁ u₁ =
        (BorrowCreateResult.created brid, s₁) →
      (return_borrowing s₁ brid actor true t₂ f₂ u₂).2.books = s.books) := by
  refine ⟨run_ops_inv ops s hids hinv, ?_, ?_, ?_⟩
  · intro uid bid erd t f u
    rcases perform_create_books_cases s uid bid erd t f u with
      ⟨book, _, _, h1, h2⟩ | h
    · exact Or.inl ⟨⟨s.next_borrowing_id, h1⟩, h2⟩
    · exact Or.inr h
  · intro brid actor staff t f u
    exact return_books_cases s brid actor staff t f u
  · intro uid bid erd t₁ f₁ u₁ actor t₂ f₂ u₂ brid s₁ hfresh hcr
    exact borrow_return_cycle s uid bid erd t₁ f₁ u₁ actor t₂ f₂ u₂ brid
      s₁ hfresh hcr

/-- Witness for C4: a concrete borrow/return cycle keeps inventories
non-negative and restores the shelf. -/
theorem inventory_invariant_spec_witness :
    (∀ b ∈ (run_ops demo_create_state
        [LibraryOp.borrow 7 2 20 15 "cs_a" "https://a",
         LibraryOp.return_borrowing 1 7 false 21 "cs_b" "https://b"]).books,
      0 ≤ b.inventory) ∧
    (return_borrowing
        (perform_create demo_create_state 7 2 20 15 "cs_a" "https://a").2
        1 7 true 21 "cs_b" "https://b").2.books =
      demo_create_state.books := by
  have h := inventory_invariant_spec demo_create_state
    [LibraryOp.borrow 7 2 20 15 "cs_a" "https://a",
     LibraryOp.return_borrowing 1 7 false 21 "cs_b" "https://b"]
    (by decide) (by decide)
  exact ⟨h.1, h.2.2.2 7 2 20 15 "cs_a" "https://a" 7 21 "cs_b" "https://b" 1
    (perform_create demo_create_state 7 2 20 15 "cs_a" "https://a").2
    (by decide) (by decide)⟩

end LibraryDRF
